import Mathlib

/-
Verification of the Telegram channel downloader
(`src/telegram_channel_downloader.py`) against its specification.

The embedding below models the ingestion core of the script:
`sanitize_filename` (lines 84-89), the media classification and filename
logic of `download_media` (lines 106-157), the per-message loop body of
`download_channel` (lines 201-236), and the resolution/abort structure of
`download_channel` (lines 159-259).

Modelling conventions:
- Python strings are lists of characters (`List Char`); `pathlib` paths are
  lists of path components (`FsPath`), since `base / sub / name` appends
  components.
- The Telethon client is an oracle: the outcome of one
  `client.download_media` attempt is a `FetchOutcome` parameter, and channel
  resolution (`get_entity`) is an `Option Channel` parameter.
- Side effects that matter to the specification (fetch attempts, sleeps,
  directory creation, error logging, transcript writes) are recorded in an
  event trace.
- Python exceptions are an explicit `PyResult`.  One point needs care: the
  class defines methods `sanitize_filename`, `create_download_directory`
  and `download_media`, but the call sites at lines 94, 136, 152, 184 and
  211 name them with a leading underscore (`self._sanitize_filename`,
  `self._create_download_directory`, `self._download_media`).  The class
  (which has no base class) defines no such attributes, so each of those
  call sites raises `AttributeError` when executed.  An `AttributeError`
  raised at line 136 is inside the `try` body of `download_media` and is
  caught by the `except Exception` handler at line 154; one raised inside
  the `except FloodWaitError` handler (line 152) is not caught by the
  sibling handler of the same `try` and propagates out of `download_media`.
-/

namespace TelegramDL

/-- Filesystem paths, modelled syntactically as their list of components:
`Path("downloads/x") / "photos" / "a.jpg"` is `["downloads/x", "photos", "a.jpg"]`
componentwise (the embedded code never puts a separator inside a component
except in the literal base prefix, which stays one opaque component here). -/
abbrev FsPath := List (List Char)

/-- The per-run counters `self.stats` (lines 58-65). -/
structure RunStats where
  messages : Nat
  photos : Nat
  videos : Nat
  documents : Nat
  audio : Nat
  errors : Nat
  deriving DecidableEq, Repr

/-- The initial `self.stats` dictionary: all counters zero. -/
def statsZero : RunStats := ⟨0, 0, 0, 0, 0, 0⟩

/-- The four media categories of the classifier (spec section 4.2). -/
inductive MediaCategory
  | photo
  | video
  | audio
  | document
  deriving DecidableEq, Repr

/-- A message's media descriptor: `MessageMediaPhoto`, `MessageMediaDocument`
(with the optional `mime_type` of line 120 and, per attribute, the optional
declared `file_name` the `hasattr` check of line 135 looks for), or
`MessageMediaWebPage`. -/
inductive MediaDescriptor
  | photo
  | document (mimeType : Option (List Char)) (attributes : List (Option (List Char)))
  | webPage
  deriving DecidableEq, Repr

/-- A raw Telethon message as the loop reads it: id, date (already rendered
to its ISO form), optional text, optional media, view and forward counts,
and whether it is a `MessageService` (line 203). -/
structure RawMessage where
  id : Nat
  date : Option (List Char)
  text : Option (List Char)
  media : Option MediaDescriptor
  views : Option Nat
  forwards : Option Nat
  isService : Bool
  deriving DecidableEq, Repr

/-- The `message_data` dictionary built at lines 214-221 and appended to
`messages_data` (the structured log). -/
structure MessageData where
  id : Nat
  date : Option (List Char)
  text : List Char
  media_path : Option FsPath
  views : Option Nat
  forwards : Option Nat
  deriving DecidableEq, Repr

/-- Outcome of one `client.download_media` attempt: success, a
`FloodWaitError` carrying `e.seconds`, or any other exception. -/
inductive FetchOutcome
  | success
  | floodWait (seconds : Nat)
  | failure
  deriving DecidableEq, Repr

/-- A Python exception that escapes the modelled code.  Only
`AttributeError` (from the underscore-named call sites) can do so. -/
inductive PyError
  | attributeError (name : String)
  deriving DecidableEq, Repr

/-- Result of running a piece of Python code: a value, or an escaping
exception. -/
inductive PyResult (α : Type)
  | ok (val : α)
  | exn (err : PyError)
  deriving DecidableEq, Repr

/-- Observable side effects, in order of occurrence. -/
inductive Event
  | fetchAttempt (msgId : Nat) (path : FsPath)
  | sleep (seconds : Nat)
  | dirCreated (path : FsPath)
  | logError
  | transcriptWrite (msgId : Nat)
  deriving DecidableEq, Repr

/-- The resolved channel entity (`get_entity` result): its optional title. -/
structure Channel where
  title : Option (List Char)
  deriving DecidableEq, Repr

/-- The invalid characters of `sanitize_filename` (line 86). -/
def invalidChars : List Char := ['<', '>', ':', '"', '/', '\\', '|', '?', '*']

/-- One step of the loop at lines 87-88: Python `filename.replace(char, '_')`
for a single character is a character-wise map. -/
def replaceChar (s : List Char) (c : Char) : List Char :=
  s.map (fun x => if x = c then '_' else x)

/-- Lines 84-89: replace every occurrence of each invalid character with an
underscore, then truncate to the first 255 characters (`filename[:255]`). -/
def sanitize_filename (s : List Char) : List Char :=
  (invalidChars.foldl replaceChar s).take 255

/-- Python substring test `needle in hay`. -/
def strIncludes (needle hay : List Char) : Bool :=
  (List.range (hay.length + 1)).any fun i => needle.isPrefixOf (hay.drop i)

/-- The subdirectory used for each category: line 111 for photos, lines
123, 126, 129 for documents. -/
def subdirOf : MediaCategory → List Char
  | .photo => "photos".data
  | .video => "videos".data
  | .audio => "audio".data
  | .document => "documents".data

/-- The mime-type branch of lines 122-130: `'video' in mime_type` gives a
video, else `'audio' in mime_type or 'ogg' in mime_type` gives audio, else a
generic document. -/
def docCategory (mimeType : List Char) : MediaCategory :=
  if strIncludes "video".data mimeType then .video
  else if strIncludes "audio".data mimeType || strIncludes "ogg".data mimeType then .audio
  else .document

/-- The `self.stats[...] += 1` update paired with each category branch
(lines 113, 124, 127, 130). -/
def bumpCategory (s : RunStats) : MediaCategory → RunStats
  | .photo => { s with photos := s.photos + 1 }
  | .video => { s with videos := s.videos + 1 }
  | .audio => { s with audio := s.audio + 1 }
  | .document => { s with documents := s.documents + 1 }

/-- The category the classifier assigns to a descriptor (lines 110-130);
`none` for a web-page preview, which is never fetched.  A missing
`mime_type` attribute is read as the empty string (line 120). -/
def categoryOf : MediaDescriptor → Option MediaCategory
  | .photo => some .photo
  | .document mt _ => some (docCategory (mt.getD []))
  | .webPage => none

/-- Decimal rendering of a message id, as f-string interpolation does. -/
def fmtNat (n : Nat) : List Char := (Nat.repr n).data

/-- The photo filename `photo_{message.id}.jpg` of line 111. -/
def photoFilename (i : Nat) : List Char :=
  "photo_".data ++ fmtNat i ++ ".jpg".data

/-- Lines 139-141: `ext = mime_type.split('/')[-1] if '/' in mime_type else 'bin'`
(`split('/')[-1]` is the chunk after the last slash) and
`filename = f"file_{message.id}.{ext}"`. -/
def synthFilename (i : Nat) (mimeType : List Char) : List Char :=
  let ext := if mimeType.contains '/' then (mimeType.splitOn '/').getLastD []
             else "bin".data
  "file_".data ++ fmtNat i ++ ".".data ++ ext

/-- The scan of lines 133-137: the first attribute carrying a `file_name`,
if any. -/
def findDeclaredName : List (Option (List Char)) → Option (List Char)
  | [] => none
  | some fn :: _ => some fn
  | none :: rest => findDeclaredName rest

/-- Embedding of `download_media` (lines 106-157).  `fetch` is the outcome
the client produces for the one attempt this code can make.  Behaviour of
the underscore-named call sites (see the header comment): a document with a
declared filename reaches `self._sanitize_filename` (line 136), whose
`AttributeError` is caught by `except Exception` (lines 154-157), so the
category counter stays bumped, `errors` is incremented and `None` is
returned without any fetch; a `FloodWaitError` from the fetch reaches the
handler at lines 149-152, which sleeps `e.seconds` and then raises
`AttributeError` at `self._download_media`, which propagates. -/
def download_media (s : RunStats) (m : RawMessage) (baseDir : FsPath)
    (fetch : FetchOutcome) : PyResult (Option FsPath) × RunStats × List Event :=
  match m.media with
  | none => (.ok none, s, [])
  | some .webPage => (.ok none, s, [])
  | some .photo =>
    let path := baseDir ++ [subdirOf .photo, photoFilename m.id]
    match fetch with
    | .success => (.ok (some path), { s with photos := s.photos + 1 },
                   [.fetchAttempt m.id path])
    | .floodWait n => (.exn (.attributeError "_download_media"), s,
                       [.fetchAttempt m.id path, .sleep n])
    | .failure => (.ok none, { s with errors := s.errors + 1 },
                   [.fetchAttempt m.id path])
  | some (.document mt attrs) =>
    let mimeType := mt.getD []
    let cat := docCategory mimeType
    let s1 := bumpCategory s cat
    match findDeclaredName attrs with
    | some _ => (.ok none, { s1 with errors := s1.errors + 1 }, [])
    | none =>
      let path := baseDir ++ [subdirOf cat, synthFilename m.id mimeType]
      match fetch with
      | .success => (.ok (some path), s1, [.fetchAttempt m.id path])
      | .floodWait n => (.exn (.attributeError "_download_media"), s1,
                         [.fetchAttempt m.id path, .sleep n])
      | .failure => (.ok none, { s1 with errors := s1.errors + 1 },
                     [.fetchAttempt m.id path])

/-- One iteration of the `async for` loop (lines 202-236).  A service
message is skipped (lines 203-204).  Otherwise `messages` is incremented
(line 206) and, when the message carries media other than a web-page
preview, line 211 evaluates `self._download_media` — an attribute the class
does not define — so the iteration aborts with `AttributeError` after the
counter bump and before any record is appended.  A message with no real
media proceeds with a null media path: a record is appended to
`messages_data` (line 222) and a block is written to the transcript
(lines 225-232). -/
def processMessage (s : RunStats) (records : List MessageData) (m : RawMessage) :
    PyResult Unit × RunStats × List MessageData × List Event :=
  if m.isService then (.ok (), s, records, [])
  else
    let s1 := { s with messages := s.messages + 1 }
    let hasRealMedia := match m.media with
      | some .webPage => false
      | some _ => true
      | none => false
    if hasRealMedia then
      (.exn (.attributeError "_download_media"), s1, records, [])
    else
      let rcd : MessageData := ⟨m.id, m.date, m.text.getD [], none, m.views, m.forwards⟩
      (.ok (), s1, records ++ [rcd], [.transcriptWrite m.id])

/-- The whole `async for` loop (lines 201-236): iterate `processMessage`
over the delivered sequence, stopping at the first propagating exception. -/
def runLoop : RunStats → List MessageData → List RawMessage →
    PyResult Unit × RunStats × List MessageData × List Event
  | s, records, [] => (.ok (), s, records, [])
  | s, records, m :: rest =>
    match processMessage s records m with
    | (.ok _, s1, r1, ev) =>
      let out := runLoop s1 r1 rest
      (out.1, out.2.1, out.2.2.1, ev ++ out.2.2.2)
    | (.exn e, s1, r1, ev) => (.exn e, s1, r1, ev)

/-- Embedding of `download_channel` (lines 159-259).  `resolution` is the
`get_entity` outcome and `_msgs` the sequence `iter_messages` would yield.
When resolution fails, lines 179-181 log the error and return: no directory
is created and no message is touched.  When resolution succeeds, line 184
evaluates `self._create_download_directory` — the class defines
`create_download_directory` without the underscore — so an `AttributeError`
is raised before any directory is created and before the loop is entered;
the outer handler (lines 254-256) logs it and re-raises. -/
def download_channel (s : RunStats) (resolution : Option Channel)
    (_msgs : List RawMessage) :
    PyResult Unit × RunStats × List MessageData × List Event :=
  match resolution with
  | none => (.ok (), s, [], [.logError])
  | some _ => (.exn (.attributeError "_create_download_directory"), s, [], [])

/-- A sample base directory for concrete runs. -/
def baseDir0 : FsPath := ["downloads".data, "chan_20251012".data]

/-- A text-only message with the given id. -/
def msgText (i : Nat) : RawMessage :=
  ⟨i, none, some "hello".data, none, none, none, false⟩

/-- A photo message with id 7. -/
def msgPhoto7 : RawMessage := ⟨7, none, none, some .photo, none, none, false⟩

/-- A document message with declared filename `report.pdf` and mime-type
`application/pdf`. -/
def msgReport : RawMessage :=
  ⟨9, none, none,
   some (.document (some "application/pdf".data) [some "report.pdf".data]),
   none, none, false⟩

/-- A document message with mime-type `video/mp4`, no declared filename,
and id 42 (scenario C). -/
def msgVideo42 : RawMessage :=
  ⟨42, none, none, some (.document (some "video/mp4".data) []), none, none, false⟩

/-- A service message. -/
def msgService1 : RawMessage := ⟨1, none, none, none, none, none, true⟩

/-- A message whose media is a web-page preview. -/
def msgWebPage5 : RawMessage :=
  ⟨5, none, some "link".data, some .webPage, none, none, false⟩

/-- Membership in a single replacement step: an element of `replaceChar s a`
is either the underscore or an element of `s` distinct from `a`. -/
lemma mem_replaceChar {x : Char} {s : List Char} {a : Char}
    (h : x ∈ replaceChar s a) : x = '_' ∨ (x ∈ s ∧ x ≠ a) := by
  rcases List.mem_map.mp h with ⟨y, hy, hfy⟩
  by_cases hya : y = a
  · subst hya
    simp only [if_pos rfl] at hfy
    exact Or.inl hfy.symm
  · simp only [if_neg hya] at hfy
    subst hfy
    exact Or.inr ⟨hy, hya⟩

/-- Membership after the full replacement fold: an element of the result is
either the underscore or an element of `s` matching none of the targets. -/
lemma mem_foldl_replaceChar :
    ∀ (l : List Char) (s : List Char) (x : Char), x ∈ l.foldl replaceChar s →
      x = '_' ∨ (x ∈ s ∧ x ∉ l) := by
  intro l
  induction l with
  | nil =>
    intro s x h
    exact Or.inr ⟨h, by simp⟩
  | cons a l ih =>
    intro s x h
    rw [List.foldl_cons] at h
    rcases ih (replaceChar s a) x h with h1 | ⟨hmem, hnl⟩
    · exact Or.inl h1
    · rcases mem_replaceChar hmem with h2 | ⟨hs, hne⟩
      · exact Or.inl h2
      · exact Or.inr ⟨hs, by simp [List.mem_cons, hne, hnl]⟩

/-- A replacement step whose target does not occur is the identity. -/
lemma replaceChar_eq_self {s : List Char} {a : Char}
    (h : ∀ x ∈ s, x ≠ a) : replaceChar s a = s := by
  induction s with
  | nil => rfl
  | cons b t ih =>
    have hb : b ≠ a := h b (by simp)
    simp only [replaceChar, List.map_cons, if_neg hb]
    have := ih (fun x hx => h x (List.mem_cons_of_mem _ hx))
    simpa [replaceChar] using this

/-- The replacement fold is the identity on a string avoiding every target. -/
lemma foldl_replaceChar_eq_self :
    ∀ (l : List Char) (s : List Char), (∀ x ∈ s, x ∉ l) → l.foldl replaceChar s = s := by
  intro l
  induction l with
  | nil => intro s _; rfl
  | cons a l ih =>
    intro s h
    have h1 : replaceChar s a = s :=
      replaceChar_eq_self (fun x hx => by
        have := h x hx
        simp only [List.mem_cons, not_or] at this
        exact this.1)
    rw [List.foldl_cons, h1]
    exact ih s (fun x hx => by
      have := h x hx
      simp only [List.mem_cons, not_or] at this
      exact this.2)

/-- Every character of a sanitized string avoids the invalid set. -/
lemma sanitize_filename_no_invalid {s : List Char} :
    ∀ c ∈ sanitize_filename s, c ∉ invalidChars := by
  intro c hc
  have hc' : c ∈ invalidChars.foldl replaceChar s :=
    List.take_subset _ _ hc
  rcases mem_foldl_replaceChar invalidChars s c hc' with h1 | ⟨_, hnotin⟩
  · subst h1; decide
  · exact hnotin

/-- C8: `sanitize_filename` is idempotent, its output contains none of the
nine invalid characters, and its output never exceeds 255 characters. -/
theorem c8_sanitize_idempotent_and_safe (s : List Char) :
    sanitize_filename (sanitize_filename s) = sanitize_filename s ∧
    (∀ c ∈ sanitize_filename s, c ∉ invalidChars) ∧
    (sanitize_filename s).length ≤ 255 := by
  have hlen : (sanitize_filename s).length ≤ 255 := by
    simp [sanitize_filename, List.length_take]
  refine ⟨?_, sanitize_filename_no_invalid, hlen⟩
  have hfold : invalidChars.foldl replaceChar (sanitize_filename s) = sanitize_filename s :=
    foldl_replaceChar_eq_self invalidChars _ sanitize_filename_no_invalid
  show (invalidChars.foldl replaceChar (sanitize_filename s)).take 255 = sanitize_filename s
  rw [hfold]
  exact List.take_of_length_le hlen

/-- C1: the happy path does not complete.  On a channel that resolves and
would yield exactly 3 text-only messages, `download_channel` raises
`AttributeError` at `self._create_download_directory` (line 184) before the
loop is entered, so the run aborts with the `messages` counter at 0 (not 3)
and an empty structured log (not 3 records). -/
theorem c1_happy_path_aborts :
    download_channel statsZero (some ⟨some "chan".data⟩)
        [msgText 1, msgText 2, msgText 3] =
      (.exn (.attributeError "_create_download_directory"), statsZero, [], []) ∧
    (download_channel statsZero (some ⟨some "chan".data⟩)
        [msgText 1, msgText 2, msgText 3]).2.1.messages ≠ 3 :=
  ⟨rfl, by decide⟩

/-- C2: on a rate-limit signal carrying a 5-second wait, `download_media`
performs the wait (lines 150-151) but then raises `AttributeError` at
`self._download_media` (line 152) instead of retrying: the trace holds
exactly one fetch attempt and the exception propagates (the `errors`
counter is not even incremented).  The non-rate-limit half of the claim
does hold: a plain failure increments `errors` once, performs no retry and
reports a null media path. -/
theorem c2_floodwait_sleeps_then_raises :
    download_media statsZero msgPhoto7 baseDir0 (.floodWait 5) =
      (.exn (.attributeError "_download_media"), statsZero,
        [.fetchAttempt 7 (baseDir0 ++ [subdirOf .photo, photoFilename 7]), .sleep 5]) ∧
    download_media statsZero msgPhoto7 baseDir0 .failure =
      (.ok none, { statsZero with errors := 1 },
        [.fetchAttempt 7 (baseDir0 ++ [subdirOf .photo, photoFilename 7])]) :=
  ⟨rfl, rfl⟩

/-- C3: a document with declared filename `report.pdf` and mime-type
`application/pdf` is classified as a document (the `documents` counter is
bumped at line 130), but the declared-filename branch then evaluates
`self._sanitize_filename` (line 136), whose `AttributeError` is caught at
line 154: `errors` is incremented, no fetch is attempted, and a null media
path is returned instead of a path ending in `documents/report.pdf`. -/
theorem c3_declared_filename_yields_error_and_null :
    download_media statsZero msgReport baseDir0 .success =
      (.ok none, { statsZero with documents := 1, errors := 1 }, []) := rfl

/-- C4: the counter/record invariant breaks on abort.  Running the loop on
a service message followed by a photo message: the service message is
skipped (no counter, no record), then the photo message increments
`messages` to 1 (line 206) and aborts with `AttributeError` at
`self._download_media` (line 211) before any record is appended, leaving
`messages = 1` against 0 records. -/
theorem c4_media_abort_breaks_counter_invariant :
    runLoop statsZero [] [msgService1, msgPhoto7] =
      (.exn (.attributeError "_download_media"),
       { statsZero with messages := 1 }, [], []) ∧
    (runLoop statsZero [] [msgService1, msgPhoto7]).2.1.messages ≠
      (runLoop statsZero [] [msgService1, msgPhoto7]).2.2.1.length :=
  ⟨rfl, by decide⟩

/-- C6: when the channel identifier fails to resolve, `download_channel`
logs the error and returns (lines 179-181): the stats are untouched, no
record is produced, and the trace holds no directory-creation event — the
directory call site is only reached after successful resolution. -/
theorem c6_resolution_failure_no_directory (s : RunStats) (msgs : List RawMessage) :
    download_channel s none msgs = (.ok (), s, [], [.logError]) ∧
    ∀ p, Event.dirCreated p ∉ (download_channel s none msgs).2.2.2 := by
  refine ⟨rfl, fun p hp => ?_⟩
  simp [download_channel] at hp

/-- C7: for a document with no declared filename the synthesized target
filename is `file_{message_id}.{ext}` (with `ext` the chunk of the
mime-type after its slash), the matching category counter is bumped, and a
successful fetch returns the path `base / subdir / filename`; when the
mime-type has no slash the extension defaults to `bin`. -/
theorem c7_synthesized_filename (s : RunStats) (m : RawMessage) (b : FsPath)
    (mt : Option (List Char)) (attrs : List (Option (List Char)))
    (hm : m.media = some (.document mt attrs))
    (hn : findDeclaredName attrs = none) :
    download_media s m b .success =
      (.ok (some (b ++ [subdirOf (docCategory (mt.getD [])),
                        synthFilename m.id (mt.getD [])])),
       bumpCategory s (docCategory (mt.getD [])),
       [.fetchAttempt m.id (b ++ [subdirOf (docCategory (mt.getD [])),
                                  synthFilename m.id (mt.getD [])])]) ∧
    ('/' ∉ mt.getD [] →
      synthFilename m.id (mt.getD []) =
        "file_".data ++ fmtNat m.id ++ ".".data ++ "bin".data) := by
  constructor
  · simp [download_media, hm, hn]
  · intro h
    simp [synthFilename, h]

/-- Scenario C for C7: a document with mime-type `video/mp4`, no declared
filename and message id 42 yields `file_42.mp4` under `videos/`. -/
theorem c7_witness :
    download_media statsZero msgVideo42 baseDir0 .success =
      (.ok (some (baseDir0 ++ ["videos".data, "file_42.mp4".data])),
       { statsZero with videos := 1 },
       [.fetchAttempt 42 (baseDir0 ++ ["videos".data, "file_42.mp4".data])]) ∧
    synthFilename 42 "video/mp4".data = "file_42.mp4".data ∧
    docCategory "video/mp4".data = .video :=
  ⟨(c7_synthesized_filename statsZero msgVideo42 baseDir0
      (some "video/mp4".data) [] rfl rfl).1,
   by decide, by decide⟩

/-- C9: a non-service message whose media is a web-page preview, or which
carries no media at all, produces a record with a null media path and no
fetch attempt (line 210 filters it before any fetch); at the
`download_media` level such descriptors fall through to `return None`
(line 147) with no stats change and no events. -/
theorem c9_webpage_never_fetched (s : RunStats) (records : List MessageData)
    (m : RawMessage) (b : FsPath) (f : FetchOutcome)
    (hsvc : m.isService = false)
    (hmedia : m.media = none ∨ m.media = some .webPage) :
    processMessage s records m =
      (.ok (), { s with messages := s.messages + 1 },
       records ++ [⟨m.id, m.date, m.text.getD [], none, m.views, m.forwards⟩],
       [.transcriptWrite m.id]) ∧
    download_media s m b f = (.ok none, s, []) := by
  rcases hmedia with h | h
  · exact ⟨by simp [processMessage, hsvc, h], by simp [download_media, h]⟩
  · exact ⟨by simp [processMessage, hsvc, h], by simp [download_media, h]⟩

/-- Concrete instance of C9: the web-page-preview message with id 5. -/
theorem c9_witness :
    processMessage statsZero [] msgWebPage5 =
      (.ok (), { statsZero with messages := 1 },
       [⟨5, none, "link".data, none, none, none⟩],
       [.transcriptWrite 5]) ∧
    download_media statsZero msgWebPage5 baseDir0 .success =
      (.ok none, statsZero, []) :=
  c9_webpage_never_fetched statsZero [] msgWebPage5 baseDir0 .success rfl (Or.inr rfl)

/-- C10: counter-update asymmetry of `download_media`.  For a document, the
category counter is bumped (lines 122-130) before the fetch, so a failing
fetch leaves it bumped and additionally increments `errors`; for a photo,
`photos` is bumped only after a successful fetch (line 113), so a failing
fetch leaves `photos` untouched and increments only `errors`. -/
theorem c10_counter_bump_asymmetry :
    (∀ (s : RunStats) (m : RawMessage) (b : FsPath) (mt : Option (List Char))
        (attrs : List (Option (List Char))),
      m.media = some (.document mt attrs) → findDeclaredName attrs = none →
      download_media s m b .failure =
        (.ok none,
         { bumpCategory s (docCategory (mt.getD [])) with errors := s.errors + 1 },
         [.fetchAttempt m.id (b ++ [subdirOf (docCategory (mt.getD [])),
                                    synthFilename m.id (mt.getD [])])])) ∧
    (∀ (s : RunStats) (m : RawMessage) (b : FsPath),
      m.media = some .photo →
      download_media s m b .failure =
        (.ok none, { s with errors := s.errors + 1 },
         [.fetchAttempt m.id (b ++ [subdirOf .photo, photoFilename m.id])])) := by
  constructor
  · intro s m b mt attrs hm hn
    have he : (bumpCategory s (docCategory (mt.getD []))).errors = s.errors := by
      cases docCategory (mt.getD []) <;> rfl
    simp [download_media, hm, hn, he]
  · intro s m b hm
    simp [download_media, hm]

/-- Concrete instance of C10: a failing video fetch (id 42) leaves
`videos = 1` and `errors = 1`; a failing photo fetch (id 7) leaves
`photos = 0` and `errors = 1`. -/
theorem c10_witness :
    download_media statsZero msgVideo42 baseDir0 .failure =
      (.ok none, { statsZero with videos := 1, errors := 1 },
       [.fetchAttempt 42 (baseDir0 ++ ["videos".data, "file_42.mp4".data])]) ∧
    download_media statsZero msgPhoto7 baseDir0 .failure =
      (.ok none, { statsZero with errors := 1 },
       [.fetchAttempt 7 (baseDir0 ++ ["photos".data, "photo_7.jpg".data])]) :=
  ⟨c10_counter_bump_asymmetry.1 statsZero msgVideo42 baseDir0
     (some "video/mp4".data) [] rfl rfl,
   c10_counter_bump_asymmetry.2 statsZero msgPhoto7 baseDir0 rfl⟩

/-- Characterization of the non-null paths `download_media` can return:
each one is `base / subdir / filename` for the subdirectory the classifier
assigns to the message's descriptor. -/
lemma download_media_some_path {s s2 : RunStats} {m : RawMessage}
    {b : FsPath} {f : FetchOutcome} {d : MediaDescriptor} {p : FsPath}
    {ev : List Event} (hm : m.media = some d)
    (h : download_media s m b f = (.ok (some p), s2, ev)) :
    ∃ c fn, categoryOf d = some c ∧ p = b ++ [subdirOf c, fn] := by
  cases d with
  | photo =>
    cases f with
    | success =>
      simp only [download_media, hm] at h
      obtain ⟨h1, -, -⟩ := Prod.mk.injEq .. ▸ h
      refine ⟨.photo, photoFilename m.id, rfl, ?_⟩
      simpa using h1.symm
    | floodWait n => simp [download_media, hm] at h
    | failure => simp [download_media, hm] at h
  | webPage => simp [download_media, hm] at h
  | document mt attrs =>
    cases hfn : findDeclaredName attrs with
    | some fn => simp [download_media, hm, hfn] at h
    | none =>
      cases f with
      | success =>
        simp only [download_media, hm, hfn] at h
        obtain ⟨h1, -, -⟩ := Prod.mk.injEq .. ▸ h
        refine ⟨docCategory (mt.getD []), synthFilename m.id (mt.getD []), rfl, ?_⟩
        simpa using h1.symm
      | floodWait n => simp [download_media, hm, hfn] at h
      | failure => simp [download_media, hm, hfn] at h

/-- Every record `processMessage` appends has a null media path: in this
code a structured-log record with a non-null path can never be created
(messages carrying real media abort before the record is built). -/
lemma processMessage_records_null (s : RunStats) (records : List MessageData)
    (m : RawMessage) :
    ∀ r ∈ (processMessage s records m).2.2.1, r ∈ records ∨ r.media_path = none := by
  intro r hr
  by_cases hsvc : m.isService
  · simp [processMessage, hsvc] at hr
    exact Or.inl hr
  · rcases hm : m.media with - | d
    · simp [processMessage, hsvc, hm] at hr
      rcases hr with hr | hr
      · exact Or.inl hr
      · exact Or.inr (by rw [hr])
    · cases d with
      | photo => simp [processMessage, hsvc, hm] at hr; exact Or.inl hr
      | document mt attrs => simp [processMessage, hsvc, hm] at hr; exact Or.inl hr
      | webPage =>
        simp [processMessage, hsvc, hm] at hr
        rcases hr with hr | hr
        · exact Or.inl hr
        · exact Or.inr (by rw [hr])

/-- C5: every non-null media path `download_media` returns lies under the
base directory and under the subdirectory matching the category the
classifier assigns to the message's descriptor; and sanitization indeed
leaves dots alone (`..` is a fixed point), so the property rests on the
path being built componentwise, not on dot removal. -/
theorem c5_nonnull_path_under_category_subdir (s s2 : RunStats)
    (m : RawMessage) (b : FsPath) (f : FetchOutcome) (d : MediaDescriptor)
    (p : FsPath) (ev : List Event) (hm : m.media = some d)
    (h : download_media s m b f = (.ok (some p), s2, ev)) :
    (∃ c fn, categoryOf d = some c ∧ p = b ++ [subdirOf c, fn]) ∧
    sanitize_filename "..".data = "..".data :=
  ⟨download_media_some_path hm h, by decide⟩

/-- Concrete instance of C5: the path returned for the photo message with
id 7 decomposes as `base / photos / photo_7.jpg`. -/
theorem c5_witness :
    (∃ c fn, categoryOf .photo = some c ∧
      (baseDir0 ++ ["photos".data, "photo_7.jpg".data]) = baseDir0 ++ [subdirOf c, fn]) ∧
    sanitize_filename "..".data = "..".data :=
  c5_nonnull_path_under_category_subdir statsZero { statsZero with photos := 1 }
    msgPhoto7 baseDir0 .success .photo
    (baseDir0 ++ ["photos".data, "photo_7.jpg".data])
    [.fetchAttempt 7 (baseDir0 ++ ["photos".data, "photo_7.jpg".data])] rfl rfl

end TelegramDL
